import Mathlib

/-!
Shallow embedding of the turbo11 repository's in-memory CRUD core
(`packages/orpc/src/procedures/post.ts` and the user procedures file),
together with theorems settling the frozen claims about its specification.

Modelling conventions:
* JS `Map<string, T>` becomes an association list `List T` keyed by the
  record's `id` field, in insertion order (`Array.from(map.values())`
  iterates in insertion order; `set` on an existing key updates in place,
  `set` on a fresh key appends, `delete` removes the entry).
* `Date` values become `Nat` timestamps; `crypto.randomUUID()` and
  `new Date()` results are passed in as explicit parameters.
* Handlers that may `throw` return `Except String α`; handlers that
  mutate the store additionally return the updated store, and on a throw
  return the store unchanged (the sources throw before any mutation).
* JS truthiness on optional strings (`undefined` and `""` are falsy) is
  modelled explicitly by `truthyStr` / `orElseStr`.
-/

namespace Turbo

/-- `sortOrder: 'asc' | 'desc'` from `PaginationInputSchema`. -/
inductive SortOrder where
  | asc : SortOrder
  | desc : SortOrder
deriving DecidableEq, Repr

/-- The `Post` entity (`schemas/post.ts`, `PostSchema`).  `status` and
`category` are closed string enumerations kept as strings; `publishedAt`
is nullable. -/
structure Post where
  id : String
  title : String
  slug : String
  content : String
  excerpt : Option String
  authorId : String
  status : String
  category : String
  tags : List String
  featuredImage : Option String
  published : Bool
  publishedAt : Option Nat
  viewCount : Nat
  createdAt : Nat
  updatedAt : Nat
deriving DecidableEq, Repr

/-- The `User` entity (`schemas/user.ts`, `UserSchema`). -/
structure User where
  id : String
  email : String
  name : String
  username : Option String
  avatar : Option String
  role : String
  status : String
  createdAt : Nat
  updatedAt : Nat
deriving DecidableEq, Repr

/-- `map.get(id)`: first entry whose key matches (keys are unique in a JS
`Map`; on a well-formed store there is at most one). -/
def mapGet (key : α → String) (st : List α) (id : String) : Option α :=
  st.find? (fun p => key p == id)

/-- `map.set(id, v)`: update in place if the key is present, else append. -/
def mapSet (key : α → String) (st : List α) (id : String) (v : α) : List α :=
  match st with
  | [] => [v]
  | p :: rest => if key p == id then v :: rest else p :: mapSet key rest id v

/-- `map.delete(id)`: remove the entry with the given key. -/
def mapDelete (key : α → String) (st : List α) (id : String) : List α :=
  List.eraseP (fun p => key p == id) st

/-- Well-formedness of a store: all keys distinct, as in a JS `Map`. -/
def StoreWF (key : α → String) (st : List α) : Prop :=
  st.Pairwise (fun a b => key a ≠ key b)

/-- Executable form of `StoreWF`. -/
def storeWF (key : α → String) : List α → Bool
  | [] => true
  | p :: rest => rest.all (fun q => key q != key p) && storeWF key rest

/-- JS truthiness of an optional string: `undefined` and `""` are falsy. -/
def truthyStr (o : Option String) : Bool :=
  match o with
  | some s => !s.isEmpty
  | none => false

/-- JS `a || b` for an optional string `a`: `b` when `a` is `undefined`
or `""`. -/
def orElseStr (o : Option String) (d : String) : String :=
  match o with
  | some s => if s.isEmpty then d else s
  | none => d

/-- JS `a || null` for an optional string: `""` collapses to `null`. -/
def orNullStr (o : Option String) : Option String :=
  match o with
  | some s => if s.isEmpty then none else some s
  | none => none

/-- Lower-case ASCII letters and digits: the character class `[a-z0-9]`
of the slug regexes. -/
def isLowerAlnum (c : Char) : Bool :=
  (97 ≤ c.toNat && c.toNat ≤ 122) || (48 ≤ c.toNat && c.toNat ≤ 57)

/-- `.replace(/[^a-z0-9]+/g, '-')`: every maximal run of characters
outside `[a-z0-9]` becomes a single `'-'`.  The flag records whether the
previous character was inside such a run. -/
def collapseNonAlnum : List Char → Bool → List Char
  | [], _ => []
  | c :: rest, inRun =>
    if isLowerAlnum c then c :: collapseNonAlnum rest false
    else if inRun then collapseNonAlnum rest true
    else '-' :: collapseNonAlnum rest true

/-- `.replace` of the pattern `-+$` with `''` — drop the trailing hyphen run. -/
def stripTrail (l : List Char) : List Char :=
  (l.reverse.dropWhile (fun c => c == '-')).reverse

/-- `.replace` of the pattern `^-+` with `''` — drop the leading hyphen run. -/
def stripLead (l : List Char) : List Char :=
  l.dropWhile (fun c => c == '-')

/-- `generateSlug` (post.ts lines 24-29): lower-case the title, replace
every run of non-alphanumerics with a single hyphen, strip leading and
trailing hyphens.  `Char.toLower` models `toLowerCase` (ASCII range; any
character left outside `[a-z0-9]` is collapsed to `'-'` regardless). -/
def generateSlug (title : String) : String :=
  String.mk (stripLead (stripTrail (collapseNonAlnum (title.data.map Char.toLower) false)))

/-- `CreatePostInputSchema`: all fields optional except title/content. -/
structure CreatePostInput where
  title : String
  slug : Option String := none
  content : String
  excerpt : Option String := none
  category : Option String := none
  tags : Option (List String) := none
  featuredImage : Option String := none
  status : Option String := none
  published : Option Bool := none
deriving DecidableEq, Repr

/-- `createMockPost` (post.ts lines 32-53): build the record with the
JS-truthiness defaults of the source and `set` it into the store.
`authorId` and the fresh `id` and creation instant `now` are parameters
standing for the caller-supplied author, `crypto.randomUUID()` and
`new Date()`. -/
def createMockPost (st : List Post) (input : CreatePostInput)
    (authorId newId : String) (now : Nat) : Post × List Post :=
  let post : Post :=
    { id := newId
      title := input.title
      slug := orElseStr input.slug (generateSlug input.title)
      content := input.content
      excerpt := some (orElseStr input.excerpt (input.content.take 200 ++ "..."))
      authorId := authorId
      status := orElseStr input.status "draft"
      category := orElseStr input.category "other"
      tags := input.tags.getD []
      featuredImage := orNullStr input.featuredImage
      published := input.published.getD false
      publishedAt := if input.published.getD false then some now else none
      viewCount := 0
      createdAt := now
      updatedAt := now }
  (post, mapSet Post.id st post.id post)

/-- Is some stored post already using this slug?
(`Array.from(mockPosts.values()).find(p => p.slug === s)` is defined). -/
def slugTaken (st : List Post) (s : String) : Bool :=
  (st.find? (fun p => p.slug == s)).isSome

/-- `createPost` (post.ts lines 212-229): the duplicate-slug check runs
only under `if (input.slug)`, i.e. when an explicit (truthy) slug was
supplied; otherwise the post is created with the auto-generated slug
unchecked. -/
def createPost (st : List Post) (input : CreatePostInput)
    (authorId newId : String) (now : Nat) :
    Except String Post × List Post :=
  if truthyStr input.slug && slugTaken st (input.slug.getD "") then
    (.error "Slug already exists", st)
  else
    let r := createMockPost st input authorId newId now
    (.ok r.1, r.2)

/-- The mock author object embedded in public posts (post.ts 107-111). -/
structure Author where
  id : String
  name : String
  avatar : Option String
deriving DecidableEq, Repr

/-- The public post shape returned by `getPost` and `listPosts`
(post.ts 92-112 / 177-197): every `Post` field except `status` and
`viewCount`, plus a mock author. -/
structure PublicPost where
  id : String
  title : String
  slug : String
  content : String
  excerpt : Option String
  authorId : String
  category : String
  tags : List String
  featuredImage : Option String
  published : Bool
  publishedAt : Option Nat
  createdAt : Nat
  updatedAt : Nat
  author : Author
deriving DecidableEq, Repr

/-- Project a stored post to its public shape (post.ts 92-112). -/
def toPublicPost (p : Post) : PublicPost :=
  { id := p.id
    title := p.title
    slug := p.slug
    content := p.content
    excerpt := p.excerpt
    authorId := p.authorId
    category := p.category
    tags := p.tags
    featuredImage := p.featuredImage
    published := p.published
    publishedAt := p.publishedAt
    createdAt := p.createdAt
    updatedAt := p.updatedAt
    author := { id := p.authorId, name := "John Doe", avatar := none } }

/-- `getPost` (post.ts 79-113): throw if absent, otherwise increment the
stored view count, write the record back, and return the public shape. -/
def getPost (st : List Post) (id : String) :
    Except String PublicPost × List Post :=
  match mapGet Post.id st id with
  | none => (.error "Post not found", st)
  | some post =>
    let post2 := { post with viewCount := post.viewCount + 1 }
    (.ok (toPublicPost post2), mapSet Post.id st post2.id post2)

/-- `UpdatePostInputSchema`: every field optional; `excerpt` and
`featuredImage` are additionally nullable. -/
structure UpdatePostInput where
  title : Option String := none
  slug : Option String := none
  content : Option String := none
  excerpt : Option (Option String) := none
  category : Option String := none
  tags : Option (List String) := none
  featuredImage : Option (Option String) := none
  status : Option String := none
  published : Option Bool := none
deriving DecidableEq, Repr

/-- The merge `{...post, ...input.data, updatedAt: now, publishedAt: ...}`
of `updatePost` (post.ts 254-261): provided fields override, the update
timestamp is refreshed, and `publishedAt` is set to `now` exactly when
the update publishes a currently unpublished post. -/
def applyUpdate (p : Post) (d : UpdatePostInput) (now : Nat) : Post :=
  { id := p.id
    title := d.title.getD p.title
    slug := d.slug.getD p.slug
    content := d.content.getD p.content
    excerpt := d.excerpt.getD p.excerpt
    authorId := p.authorId
    status := d.status.getD p.status
    category := d.category.getD p.category
    tags := d.tags.getD p.tags
    featuredImage := d.featuredImage.getD p.featuredImage
    published := d.published.getD p.published
    publishedAt := if d.published.getD false && !p.published then some now else p.publishedAt
    viewCount := p.viewCount
    createdAt := p.createdAt
    updatedAt := now }

/-- `updatePost` (post.ts 234-264): not-found check, then the duplicate
slug check only when a truthy slug differing from the current one is
supplied, then merge and write back. -/
def updatePost (st : List Post) (id : String) (d : UpdatePostInput) (now : Nat) :
    Except String Post × List Post :=
  match mapGet Post.id st id with
  | none => (.error "Post not found", st)
  | some post =>
    if truthyStr d.slug && d.slug.getD "" != post.slug && slugTaken st (d.slug.getD "") then
      (.error "Slug already exists", st)
    else
      let up := applyUpdate post d now
      (.ok up, mapSet Post.id st id up)

/-- `publishPost` (post.ts 283-304): toggle `published`, keep an existing
publish timestamp (`post.publishedAt || now`; a JS `Date` is always
truthy), and force the matching `status`. -/
def publishPost (st : List Post) (id : String) (published : Bool) (now : Nat) :
    Except String Post × List Post :=
  match mapGet Post.id st id with
  | none => (.error "Post not found", st)
  | some post =>
    let up : Post :=
      { post with
        published := published
        publishedAt := if published then some (post.publishedAt.getD now) else post.publishedAt
        status := if published then "published" else "draft"
        updatedAt := now }
    (.ok up, mapSet Post.id st id up)

/-- `deletePost` (post.ts 269-278): not-found check, then remove. -/
def deletePost (st : List Post) (id : String) :
    Except String Unit × List Post :=
  match mapGet Post.id st id with
  | none => (.error "Post not found", st)
  | some _ => (.ok (), mapDelete Post.id st id)

/-- Does `needle` occur at the start of `hay`? (helper for `includes`). -/
def startsWithL : List Char → List Char → Bool
  | _, [] => true
  | [], _ :: _ => false
  | h :: hs, n :: ns => h == n && startsWithL hs ns

/-- JS `String.prototype.includes` on char lists. -/
def containsSub (needle : List Char) : List Char → Bool
  | [] => needle.isEmpty
  | c :: rest => startsWithL (c :: rest) needle || containsSub needle rest

/-- `toLowerCase` (ASCII range) on a whole string. -/
def lowerStr (s : String) : String :=
  String.mk (s.data.map Char.toLower)

/-- Case-insensitive `a.toLowerCase().includes(search)` where `search`
is already lower-cased. -/
def includesLower (a : String) (search : String) : Bool :=
  containsSub search.data (lowerStr a).data

/-- `PostFiltersSchema`: all fields optional. -/
structure PostFilters where
  search : Option String := none
  authorId : Option String := none
  status : Option String := none
  category : Option String := none
  tags : Option (List String) := none
  published : Option Bool := none
  publishedAfter : Option Nat := none
  publishedBefore : Option Nat := none
deriving DecidableEq, Repr

/-- `if (filters.search) { posts = posts.filter(...) }` (post.ts
130-137): case-insensitive match on title, content or truthy excerpt;
an empty search string is falsy and skips the filter. -/
def postSearchStage (f : PostFilters) (posts : List Post) : List Post :=
  match f.search with
  | some s =>
    if s.isEmpty then posts
    else
      let search := lowerStr s
      posts.filter (fun p =>
        includesLower p.title search ||
        includesLower p.content search ||
        (match p.excerpt with
         | some e => !e.isEmpty && includesLower e search
         | none => false))
  | none => posts

/-- `if (filters.authorId) { ... }` (post.ts 138-140). -/
def postAuthorStage (f : PostFilters) (posts : List Post) : List Post :=
  match f.authorId with
  | some a => if a.isEmpty then posts else posts.filter (fun p => p.authorId == a)
  | none => posts

/-- `if (filters.status) { ... }` (post.ts 141-143). -/
def postStatusStage (f : PostFilters) (posts : List Post) : List Post :=
  match f.status with
  | some s => if s.isEmpty then posts else posts.filter (fun p => p.status == s)
  | none => posts

/-- `if (filters.category) { ... }` (post.ts 144-146). -/
def postCategoryStage (f : PostFilters) (posts : List Post) : List Post :=
  match f.category with
  | some c => if c.isEmpty then posts else posts.filter (fun p => p.category == c)
  | none => posts

/-- `if (filters.tags && filters.tags.length > 0) { ... }` (post.ts
147-151): keep posts having at least one of the filter tags. -/
def postTagsStage (f : PostFilters) (posts : List Post) : List Post :=
  match f.tags with
  | some ts =>
    if ts.length > 0 then posts.filter (fun p => ts.any (fun t => p.tags.contains t))
    else posts
  | none => posts

/-- `if (filters.published !== undefined) { ... }` (post.ts 152-154):
an explicit `false` still filters. -/
def postPublishedStage (f : PostFilters) (posts : List Post) : List Post :=
  match f.published with
  | some b => posts.filter (fun p => p.published == b)
  | none => posts

/-- `if (filters.publishedAfter) { ... }` (post.ts 155-157): a `null`
`publishedAt` fails the bound. -/
def postAfterStage (f : PostFilters) (posts : List Post) : List Post :=
  match f.publishedAfter with
  | some d =>
    posts.filter (fun p =>
      match p.publishedAt with
      | some t => d ≤ t
      | none => false)
  | none => posts

/-- `if (filters.publishedBefore) { ... }` (post.ts 158-160). -/
def postBeforeStage (f : PostFilters) (posts : List Post) : List Post :=
  match f.publishedBefore with
  | some d =>
    posts.filter (fun p =>
      match p.publishedAt with
      | some t => t ≤ d
      | none => false)
  | none => posts

/-- The filter cascade of `listPosts` (post.ts 130-160): the successive
`posts = posts.filter(...)` reassignments, applied in source order. -/
def filterPosts (f : PostFilters) (posts : List Post) : List Post :=
  postBeforeStage f (postAfterStage f (postPublishedStage f (postTagsStage f
    (postCategoryStage f (postStatusStage f (postAuthorStage f
      (postSearchStage f posts)))))))

/-- Numeric value of the sort order: `asc` is `1`, `desc` is `-1`
(post.ts 166). -/
def orderVal : SortOrder → Int
  | .asc => 1
  | .desc => -1

/-- `a[sortBy] > b[sortBy]` (post.ts 164-167), per field.  JS `>` is
string comparison for string fields, numeric for numbers, dates and
booleans; a `null` date coerces to `0`; `tags` (an array) coerces to its
comma-joined string; comparing `undefined` (an unknown field name) is
`false`.  A `null` against a non-numeric string is also `false`. -/
def postGt (sortBy : String) (a b : Post) : Bool :=
  match sortBy with
  | "id" => decide (b.id < a.id)
  | "title" => decide (b.title < a.title)
  | "slug" => decide (b.slug < a.slug)
  | "content" => decide (b.content < a.content)
  | "authorId" => decide (b.authorId < a.authorId)
  | "status" => decide (b.status < a.status)
  | "category" => decide (b.category < a.category)
  | "viewCount" => decide (b.viewCount < a.viewCount)
  | "createdAt" => decide (b.createdAt < a.createdAt)
  | "updatedAt" => decide (b.updatedAt < a.updatedAt)
  | "publishedAt" => decide (b.publishedAt.getD 0 < a.publishedAt.getD 0)
  | "published" => decide ((if b.published then 1 else 0) < (if a.published then (1 : Nat) else 0))
  | "excerpt" =>
    match a.excerpt, b.excerpt with
    | some x, some y => decide (y < x)
    | _, _ => false
  | "featuredImage" =>
    match a.featuredImage, b.featuredImage with
    | some x, some y => decide (y < x)
    | _, _ => false
  | "tags" => decide (String.intercalate "," b.tags < String.intercalate "," a.tags)
  | _ => false

/-- The comparator passed to `sort` (post.ts 163-168):
`aVal > bVal ? order : -order`.  Note it never returns `0`. -/
def postCompare (sortBy : String) (so : SortOrder) (a b : Post) : Int :=
  if postGt sortBy a b then orderVal so else -(orderVal so)

/-- Insert into a sorted list, keeping existing elements first when the
new element does not strictly precede them. -/
def insertLe (le : α → α → Bool) (x : α) : List α → List α
  | [] => [x]
  | y :: ys => if le x y then x :: y :: ys else y :: insertLe le x ys

/-- A comparison sort, modelling `Array.prototype.sort` with comparator
`cmp` as the stable sort the ECMAScript specification requires: element
`a` is placed before `b` when `cmp a b ≤ 0`.  (With the inconsistent
comparator above, the exact order among equal-keyed elements produced by
a real engine is implementation-defined; no theorem below depends on the
order of the output, only on its length.) -/
def sortWith (cmp : α → α → Int) : List α → List α
  | [] => []
  | x :: xs => insertLe (fun a b => cmp a b ≤ 0) x (sortWith cmp xs)

/-- `PaginationInputSchema` with its defaults (common schema file and
the destructuring defaults of the handlers). -/
structure Pagination where
  page : Nat := 1
  limit : Nat := 20
  sortBy : String := "createdAt"
  sortOrder : SortOrder := .desc
deriving DecidableEq, Repr

/-- The pagination envelope (`createPaginationOutputSchema`). -/
structure PageOut (α : Type) where
  data : List α
  total : Nat
  page : Nat
  totalPages : Nat
  hasNextPage : Bool
  hasPreviousPage : Bool
deriving DecidableEq, Repr

/-- `listPosts` (post.ts 118-207): snapshot, filter, sort, paginate.
`Math.ceil(total / limit)` for a positive integer `limit` is the
rounding-up division; `slice(start, start + limit)` is drop-then-take. -/
def listPosts (st : List Post) (pg : Pagination) (f : PostFilters) :
    PageOut PublicPost :=
  let posts := filterPosts f st
  let posts := sortWith (postCompare pg.sortBy pg.sortOrder) posts
  let total := posts.length
  let totalPages := (total + pg.limit - 1) / pg.limit
  let start := (pg.page - 1) * pg.limit
  let paginated := (posts.drop start).take pg.limit
  { data := paginated.map toPublicPost
    total := total
    page := pg.page
    totalPages := totalPages
    hasNextPage := decide (pg.page < totalPages)
    hasPreviousPage := decide (pg.page > 1) }

/-- The public user shape returned by the user read procedures
(user procedures file, `getUser` handler). -/
structure PublicUser where
  id : String
  name : String
  username : Option String
  avatar : Option String
  role : String
  createdAt : Nat
  updatedAt : Nat
deriving DecidableEq, Repr

/-- Project a stored user to its public shape. -/
def toPublicUser (u : User) : PublicUser :=
  { id := u.id
    name := u.name
    username := u.username
    avatar := u.avatar
    role := u.role
    createdAt := u.createdAt
    updatedAt := u.updatedAt }

/-- `getUser` (user procedures, lines 80-97): throw if absent, else
return the public fields.  It does not mutate the store. -/
def getUser (st : List User) (id : String) : Except String PublicUser :=
  match mapGet User.id st id with
  | none => .error "User not found"
  | some u => .ok (toPublicUser u)

/-- `getUserByEmail` (user procedures, lines 102-118): linear scan by
email; returns `null` rather than throwing when no user matches. -/
def getUserByEmail (st : List User) (email : String) :
    Except String (Option PublicUser) :=
  match st.find? (fun u => u.email == email) with
  | none => .ok none
  | some u => .ok (some (toPublicUser u))

/-- `UserFiltersSchema`: all fields optional. -/
structure UserFilters where
  search : Option String := none
  role : Option String := none
  status : Option String := none
  createdAfter : Option Nat := none
  createdBefore : Option Nat := none
deriving DecidableEq, Repr

/-- `if (filters.search) { ... }` (user procedures, 135-142): match on
name, email or truthy username. -/
def userSearchStage (f : UserFilters) (users : List User) : List User :=
  match f.search with
  | some s =>
    if s.isEmpty then users
    else
      let search := lowerStr s
      users.filter (fun u =>
        includesLower u.name search ||
        includesLower u.email search ||
        (match u.username with
         | some n => !n.isEmpty && includesLower n search
         | none => false))
  | none => users

/-- `if (filters.role) { ... }` (user procedures, 143-145). -/
def userRoleStage (f : UserFilters) (users : List User) : List User :=
  match f.role with
  | some r => if r.isEmpty then users else users.filter (fun u => u.role == r)
  | none => users

/-- `if (filters.status) { ... }` (user procedures, 146-148). -/
def userStatusStage (f : UserFilters) (users : List User) : List User :=
  match f.status with
  | some s => if s.isEmpty then users else users.filter (fun u => u.status == s)
  | none => users

/-- `if (filters.createdAfter) { ... }` (user procedures, 149-151). -/
def userAfterStage (f : UserFilters) (users : List User) : List User :=
  match f.createdAfter with
  | some d => users.filter (fun u => d ≤ u.createdAt)
  | none => users

/-- `if (filters.createdBefore) { ... }` (user procedures, 152-154). -/
def userBeforeStage (f : UserFilters) (users : List User) : List User :=
  match f.createdBefore with
  | some d => users.filter (fun u => u.createdAt ≤ d)
  | none => users

/-- The filter cascade of `listUsers` (user procedures, 135-154). -/
def filterUsers (f : UserFilters) (users : List User) : List User :=
  userBeforeStage f (userAfterStage f (userStatusStage f (userRoleStage f
    (userSearchStage f users))))

/-- `a[sortBy] > b[sortBy]` for users (user procedures, lines 157-162),
per field, with the same JS comparison semantics as `postGt`. -/
def userGt (sortBy : String) (a b : User) : Bool :=
  match sortBy with
  | "id" => decide (b.id < a.id)
  | "email" => decide (b.email < a.email)
  | "name" => decide (b.name < a.name)
  | "role" => decide (b.role < a.role)
  | "status" => decide (b.status < a.status)
  | "createdAt" => decide (b.createdAt < a.createdAt)
  | "updatedAt" => decide (b.updatedAt < a.updatedAt)
  | "username" =>
    match a.username, b.username with
    | some x, some y => decide (y < x)
    | _, _ => false
  | "avatar" =>
    match a.avatar, b.avatar with
    | some x, some y => decide (y < x)
    | _, _ => false
  | _ => false

/-- The comparator of `listUsers` (user procedures, lines 157-162):
`aVal > bVal ? order : -order`; like `postCompare`, never `0`. -/
def userCompare (sortBy : String) (so : SortOrder) (a b : User) : Int :=
  if userGt sortBy a b then orderVal so else -(orderVal so)

/-- `listUsers` (user procedures, lines 123-189): snapshot, filter,
sort, paginate, mirroring `listPosts`. -/
def listUsers (st : List User) (pg : Pagination) (f : UserFilters) :
    PageOut PublicUser :=
  let users := filterUsers f st
  let users := sortWith (userCompare pg.sortBy pg.sortOrder) users
  let total := users.length
  let totalPages := (total + pg.limit - 1) / pg.limit
  let start := (pg.page - 1) * pg.limit
  let paginated := (users.drop start).take pg.limit
  { data := paginated.map toPublicUser
    total := total
    page := pg.page
    totalPages := totalPages
    hasNextPage := decide (pg.page < totalPages)
    hasPreviousPage := decide (pg.page > 1) }

/-- `CreateUserInputSchema`. -/
structure CreateUserInput where
  email : String
  password : String
  name : String
  username : Option String := none
  avatar : Option String := none
  role : Option String := none
deriving DecidableEq, Repr

/-- `createMockUser` (user procedures, lines 43-58): build the record
with the source's defaults and `set` it into the store.  `newId` and
`now` stand for `crypto.randomUUID()` and `new Date()`. -/
def createMockUser (st : List User) (input : CreateUserInput)
    (newId : String) (now : Nat) : User × List User :=
  let user : User :=
    { id := newId
      email := input.email
      name := input.name
      username := input.username
      avatar := orNullStr input.avatar
      role := orElseStr input.role "user"
      status := "active"
      createdAt := now
      updatedAt := now }
  (user, mapSet User.id st user.id user)

/-- `createUser` (user procedures, lines 194-214): duplicate-email
check, then duplicate-username check when a truthy username was
supplied, then create. -/
def createUser (st : List User) (input : CreateUserInput)
    (newId : String) (now : Nat) :
    Except String User × List User :=
  if (st.find? (fun u => u.email == input.email)).isSome then
    (.error "Email already exists", st)
  else if truthyStr input.username &&
      (st.find? (fun u => u.username == some (input.username.getD ""))).isSome then
    (.error "Username already taken", st)
  else
    let r := createMockUser st input newId now
    (.ok r.1, r.2)

/-- `deleteUser` (user procedures, lines 259-268). -/
def deleteUser (st : List User) (id : String) :
    Except String Unit × List User :=
  match mapGet User.id st id with
  | none => (.error "User not found", st)
  | some _ => (.ok (), mapDelete User.id st id)

/-! ### Store lemmas -/

theorem mapGet_mapSet_self (key : α → String) (id : String) (v : α) (hv : key v = id) :
    ∀ st : List α, mapGet key (mapSet key st id v) id = some v
  | [] => by simp [mapGet, mapSet, List.find?_cons, hv]
  | p :: rest => by
    by_cases h : (key p == id) = true
    · simp [mapGet, mapSet, h, List.find?_cons, hv]
    · have ih := mapGet_mapSet_self key id v hv rest
      simp [mapGet, mapSet, h, List.find?_cons]
      simpa [mapGet] using ih

theorem mapGet_mapSet_ne (key : α → String) (id j : String) (v : α)
    (hv : key v = id) (hj : j ≠ id) :
    ∀ st : List α, mapGet key (mapSet key st id v) j = mapGet key st j
  | [] => by
    simp [mapGet, mapSet, List.find?_cons, hv, beq_iff_eq, Ne.symm hj]
  | p :: rest => by
    by_cases h : (key p == id) = true
    · have hpj : (key p == j) = false := by
        have : key p = id := by simpa [beq_iff_eq] using h
        simp [beq_iff_eq, this, Ne.symm hj]
      simp [mapGet, mapSet, h, List.find?_cons, hpj, hv, beq_iff_eq, Ne.symm hj]
    · have ih := mapGet_mapSet_ne key id j v hv hj rest
      by_cases hpj : (key p == j) = true
      · simp [mapGet, mapSet, h, List.find?_cons, hpj]
      · simp only [mapGet, mapSet] at ih ⊢
        simp [if_neg (by simpa using h), List.find?_cons, hpj, ih]

theorem mapGet_mapDelete_self (key : α → String) (id : String) :
    ∀ st : List α, storeWF key st = true →
      mapGet key (mapDelete key st id) id = none
  | [], _ => by simp [mapGet, mapDelete]
  | p :: rest, hwf => by
    have hwf2 : rest.all (fun q => key q != key p) = true ∧ storeWF key rest = true := by
      simpa [storeWF, Bool.and_eq_true] using hwf
    by_cases h : (key p == id) = true
    · have hp : key p = id := by simpa [beq_iff_eq] using h
      have : ∀ q ∈ rest, ¬((key q == id) = true) := by
        intro q hq
        have := List.all_eq_true.mp hwf2.1 q hq
        simp only [bne_iff_ne, ne_eq] at this
        simp [beq_iff_eq, hp ▸ this]
      simp [mapDelete, List.eraseP_cons, h, mapGet, List.find?_eq_none.mpr this]
    · have ih := mapGet_mapDelete_self key id rest hwf2.2
      simp only [mapDelete, mapGet] at ih ⊢
      simp [List.eraseP_cons, h, List.find?_cons, ih]

theorem mapGet_mapDelete_ne (key : α → String) (id j : String) (hj : j ≠ id) :
    ∀ st : List α, mapGet key (mapDelete key st id) j = mapGet key st j
  | [] => by simp [mapGet, mapDelete]
  | p :: rest => by
    by_cases h : (key p == id) = true
    · have hp : key p = id := by simpa [beq_iff_eq] using h
      have hpj : (key p == j) = false := by simp [beq_iff_eq, hp, Ne.symm hj]
      simp [mapDelete, List.eraseP_cons, h, mapGet, List.find?_cons, hpj]
    · have ih := mapGet_mapDelete_ne key id j hj rest
      simp only [mapDelete, mapGet] at ih ⊢
      by_cases hpj : (key p == j) = true
      · simp [List.eraseP_cons, h, List.find?_cons, hpj]
      · simp [List.eraseP_cons, h, List.find?_cons, hpj, ih]

/-! ### Sort lemmas -/

theorem length_insertLe (le : α → α → Bool) (x : α) :
    ∀ l : List α, (insertLe le x l).length = l.length + 1
  | [] => rfl
  | y :: ys => by
    unfold insertLe
    by_cases h : le x y = true
    · simp [h]
    · simp [h, length_insertLe le x ys]

theorem length_sortWith (cmp : α → α → Int) :
    ∀ l : List α, (sortWith cmp l).length = l.length
  | [] => rfl
  | x :: xs => by
    unfold sortWith
    rw [length_insertLe, length_sortWith cmp xs]
    rfl

/-! ### Slug-generation lemmas -/

theorem mem_collapseNonAlnum {c : Char} :
    ∀ (l : List Char) (b : Bool), c ∈ collapseNonAlnum l b →
      isLowerAlnum c = true ∨ c = '-'
  | [], b => by simp [collapseNonAlnum]
  | x :: rest, b => by
    unfold collapseNonAlnum
    by_cases hx : isLowerAlnum x = true
    · simp only [hx, if_true, List.mem_cons]
      rintro (rfl | hc)
      · exact Or.inl hx
      · exact mem_collapseNonAlnum rest false hc
    · simp only [hx, if_false, Bool.false_eq_true]
      by_cases hb : b = true
      · simp only [hb, if_true]
        exact mem_collapseNonAlnum rest true
      · simp only [hb, if_false, List.mem_cons, Bool.false_eq_true]
        rintro (rfl | hc)
        · exact Or.inr rfl
        · exact mem_collapseNonAlnum rest true hc

theorem head?_collapseNonAlnum_true :
    ∀ (l : List Char) (c : Char), (collapseNonAlnum l true).head? = some c →
      isLowerAlnum c = true
  | [], c => by simp [collapseNonAlnum]
  | x :: rest, c => by
    unfold collapseNonAlnum
    by_cases hx : isLowerAlnum x = true
    · simp only [hx, if_true, List.head?_cons]
      intro h
      cases h
      exact hx
    · have hx' : isLowerAlnum x = false := by simpa using hx
      simp only [hx', Bool.false_eq_true, if_false, if_true]
      exact head?_collapseNonAlnum_true rest c

/-- No two adjacent hyphens. -/
def NoHH (a b : Char) : Prop := ¬(a = '-' ∧ b = '-')

theorem isLowerAlnum_ne_hyphen {c : Char} (h : isLowerAlnum c = true) : c ≠ '-' := by
  intro hc
  subst hc
  simp [isLowerAlnum] at h

theorem chain'_collapseNonAlnum :
    ∀ (l : List Char) (b : Bool), List.Chain' NoHH (collapseNonAlnum l b)
  | [], _ => by simp [collapseNonAlnum]
  | x :: rest, b => by
    unfold collapseNonAlnum
    by_cases hx : isLowerAlnum x = true
    · simp only [hx, if_true]
      refine List.chain'_cons'.mpr ⟨?_, chain'_collapseNonAlnum rest false⟩
      intro y _
      exact fun hcontra => isLowerAlnum_ne_hyphen hx hcontra.1
    · simp only [hx, Bool.false_eq_true, if_false]
      by_cases hb : b = true
      · simp only [hb, if_true]
        exact chain'_collapseNonAlnum rest true
      · simp only [hb, if_false]
        refine List.chain'_cons'.mpr ⟨?_, chain'_collapseNonAlnum rest true⟩
        intro y hy
        have : isLowerAlnum y = true := head?_collapseNonAlnum_true rest y hy
        exact fun hcontra => isLowerAlnum_ne_hyphen this hcontra.2

theorem chain'_dropWhile {R : α → α → Prop} {p : α → Bool} :
    ∀ {l : List α}, List.Chain' R l → List.Chain' R (l.dropWhile p)
  | [], _ => by simp [List.dropWhile]
  | x :: rest, h => by
    unfold List.dropWhile
    by_cases hx : p x = true
    · simp only [hx]
      exact chain'_dropWhile (l := rest) h.tail
    · simp only [hx]
      exact h

theorem head?_dropHyphen :
    ∀ (l : List Char) (c : Char),
      (l.dropWhile (fun c => c == '-')).head? = some c → c ≠ '-'
  | [], c => by simp [List.dropWhile]
  | x :: rest, c => by
    rw [List.dropWhile_cons]
    by_cases hx : (x == '-') = true
    · rw [if_pos hx]
      exact head?_dropHyphen rest c
    · rw [if_neg hx, List.head?_cons]
      intro h
      cases h
      simpa [beq_iff_eq] using hx

theorem getLast?_dropWhile_or (p : α → Bool) :
    ∀ l : List α, l.dropWhile p = [] ∨ (l.dropWhile p).getLast? = l.getLast?
  | [] => Or.inl rfl
  | x :: rest => by
    rw [List.dropWhile_cons]
    by_cases hx : p x = true
    · rw [if_pos hx]
      rcases getLast?_dropWhile_or p rest with h | h
      · exact Or.inl h
      · match rest, h with
        | [], h =>
          exact Or.inl rfl
        | y :: ys, h =>
          exact Or.inr (by rw [h, List.getLast?_cons_cons])
    · rw [if_neg hx]
      exact Or.inr rfl

theorem noHH_flip {a b : Char} (h : NoHH a b) : NoHH b a :=
  fun hc => h ⟨hc.2, hc.1⟩

/-- Structural well-formedness of every generated slug: only lower-case
alphanumerics and hyphens, no leading or trailing hyphen, no two
adjacent hyphens. -/
theorem generateSlug_wf (t : String) :
    (∀ c ∈ (generateSlug t).data, isLowerAlnum c = true ∨ c = '-')
    ∧ (∀ c, (generateSlug t).data.head? = some c → c ≠ '-')
    ∧ (∀ c, (generateSlug t).data.getLast? = some c → c ≠ '-')
    ∧ List.Chain' NoHH (generateSlug t).data := by
  have hdata : (generateSlug t).data
      = stripLead (stripTrail (collapseNonAlnum (t.data.map Char.toLower) false)) := rfl
  refine ⟨?_, ?_, ?_, ?_⟩
  · intro c hc
    rw [hdata] at hc
    unfold stripLead stripTrail at hc
    have h1 := (List.dropWhile_sublist (l := (stripTrail (collapseNonAlnum (t.data.map Char.toLower) false))) (fun c => c == '-')).subset hc
    unfold stripTrail at h1
    rw [List.mem_reverse] at h1
    have h2 := (List.dropWhile_sublist (l := (collapseNonAlnum (t.data.map Char.toLower) false).reverse) (fun c => c == '-')).subset h1
    rw [List.mem_reverse] at h2
    exact mem_collapseNonAlnum _ false h2
  · intro c hc
    rw [hdata] at hc
    exact head?_dropHyphen _ c hc
  · intro c hc
    rw [hdata] at hc
    unfold stripLead at hc
    rcases getLast?_dropWhile_or (fun c => c == '-')
        (stripTrail (collapseNonAlnum (t.data.map Char.toLower) false)) with h | h
    · rw [h] at hc
      simp at hc
    · rw [h] at hc
      unfold stripTrail at hc
      rw [List.getLast?_reverse] at hc
      exact head?_dropHyphen _ c hc
  · rw [hdata]
    unfold stripLead stripTrail
    refine chain'_dropWhile ?_
    rw [List.chain'_reverse]
    refine List.Chain'.imp (fun a b h => noHH_flip h) ?_
    refine chain'_dropWhile ?_
    rw [List.chain'_reverse]
    exact List.Chain'.imp (fun a b h => noHH_flip h) (chain'_collapseNonAlnum _ false)

/-! ### Concrete fixtures used to instantiate the theorems -/

def samplePost : Post :=
  { id := "p0", title := "Getting Started", slug := "getting-started",
    content := "ORPC is a powerful RPC framework", excerpt := some "Learn",
    authorId := "a0", status := "published", category := "technology",
    tags := ["orpc"], featuredImage := none, published := true,
    publishedAt := some 1, viewCount := 3, createdAt := 1, updatedAt := 1 }

def samplePostB : Post :=
  { samplePost with
    id := "p1"
    slug := "another-post"
    status := "draft"
    published := false
    publishedAt := none
    viewCount := 0 }

def sampleUser : User :=
  { id := "u0", email := "admin@example.com", name := "Admin User",
    username := some "admin", avatar := none, role := "admin",
    status := "active", createdAt := 1, updatedAt := 1 }

def sampleUserB : User :=
  { id := "u1", email := "john@example.com", name := "John Doe",
    username := some "johndoe", avatar := none, role := "user",
    status := "active", createdAt := 2, updatedAt := 2 }

def helloInput : CreatePostInput :=
  { title := "Hello World", content := "0123456789" }

/-! ### Claim theorems -/

set_option maxRecDepth 4000 in
/-- Claim C8: creating a post with `{title:"Hello World",
content:"0123456789"}` and no explicit slug, status or published flag
yields slug `"hello-world"`, status `"draft"`, `published = false` and
`viewCount = 0` (shown by the full record equality); and in general the
auto-generated slug is URL-safe: every character is a lower-case
alphanumeric or a hyphen, it never starts or ends with a hyphen, and no
two hyphens are adjacent (each run of non-alphanumerics became a single
hyphen). -/
theorem createPost_defaults_and_slug :
    (createPost [] helloInput "a1" "p1" 1).1
      = .ok { id := "p1", title := "Hello World", slug := "hello-world",
              content := "0123456789", excerpt := some "0123456789...",
              authorId := "a1", status := "draft", category := "other",
              tags := [], featuredImage := none, published := false,
              publishedAt := none, viewCount := 0, createdAt := 1, updatedAt := 1 }
    ∧ ∀ t : String,
        (∀ c ∈ (generateSlug t).data, isLowerAlnum c = true ∨ c = '-')
        ∧ (∀ c, (generateSlug t).data.head? = some c → c ≠ '-')
        ∧ (∀ c, (generateSlug t).data.getLast? = some c → c ≠ '-')
        ∧ List.Chain' NoHH (generateSlug t).data :=
  ⟨rfl, generateSlug_wf⟩

/-- Witness for C8: the general slug clauses evaluated on concrete
titles. -/
theorem createPost_defaults_and_slug_witness :
    (isLowerAlnum 'h' = true ∨ 'h' = '-') ∧ 'x' ≠ '-' :=
  ⟨(createPost_defaults_and_slug.2 "Hello World").1 'h' (by decide),
   (createPost_defaults_and_slug.2 "-x-").2.1 'x' (by decide)⟩

/-- Counterexample to claim C1: `createPost` checks slug uniqueness only
when an explicit slug is supplied.  Creating the post
`{title:"Hello World", content:"0123456789"}` twice succeeds both
times, ending in a reachable store holding two posts with slug
`"hello-world"` — so the auto-generated-slug case is not rejected and
slug uniqueness is not an invariant. -/
theorem createPost_autoslug_duplicate :
    (createPost [] helloInput "a1" "p1" 1).1.isOk = true
    ∧ (createPost (createPost [] helloInput "a1" "p1" 1).2 helloInput "a2" "p2" 2).1.isOk = true
    ∧ ((createPost (createPost [] helloInput "a1" "p1" 1).2 helloInput "a2" "p2" 2).2.filter
        (fun p => p.slug == "hello-world")).length = 2 := by decide

/-- Amended claim C1: `createPost` rejects with the duplicate-slug error
exactly when the input carries an explicit non-empty slug already used
by some stored post; an auto-generated slug is never checked. -/
theorem createPost_duplicate_check_iff (st : List Post) (inp : CreatePostInput)
    (aId nId : String) (now : Nat) :
    (createPost st inp aId nId now).1 = .error "Slug already exists"
      ↔ ∃ s, inp.slug = some s ∧ s ≠ "" ∧ ∃ p ∈ st, p.slug = s := by
  have hcond : (truthyStr inp.slug && slugTaken st (inp.slug.getD "")) = true
      ↔ ∃ s, inp.slug = some s ∧ s ≠ "" ∧ ∃ p ∈ st, p.slug = s := by
    constructor
    · intro h
      rw [Bool.and_eq_true] at h
      obtain ⟨h1, h2⟩ := h
      match hs : inp.slug with
      | none => rw [hs] at h1; simp [truthyStr] at h1
      | some s =>
        rw [hs] at h1 h2
        refine ⟨s, rfl, ?_, ?_⟩
        · intro hs0
          simp only [truthyStr, hs0, Bool.not_eq_true'] at h1
          exact Bool.noConfusion ((by decide : ("" : String).isEmpty = true).symm.trans h1)
        · unfold slugTaken at h2
          rw [List.find?_isSome] at h2
          obtain ⟨p, hp, hps⟩ := h2
          exact ⟨p, hp, by simpa [beq_iff_eq] using hps⟩
    · rintro ⟨s, hs, hs0, p, hp, hps⟩
      rw [hs, Bool.and_eq_true]
      constructor
      · simp only [truthyStr, Bool.not_eq_true']
        rw [Bool.eq_false_iff]
        intro hx
        exact hs0 ((String.isEmpty_iff s).mp hx)
      · unfold slugTaken
        rw [List.find?_isSome]
        exact ⟨p, hp, by simp [beq_iff_eq, hps]⟩
  unfold createPost
  by_cases h : (truthyStr inp.slug && slugTaken st (inp.slug.getD "")) = true
  · rw [if_pos h]
    exact iff_of_true rfl (hcond.mp h)
  · rw [if_neg h]
    exact iff_of_false (by simp) (fun hx => h (hcond.mpr hx))

/-! ### Pagination helper lemmas -/

theorem listPosts_data_length (st : List Post) (pg : Pagination) (f : PostFilters) :
    (listPosts st pg f).data.length
      = min pg.limit ((listPosts st pg f).total - (pg.page - 1) * pg.limit) := by
  unfold listPosts
  simp [List.length_take, List.length_drop, length_sortWith]

theorem listUsers_data_length (st : List User) (pg : Pagination) (f : UserFilters) :
    (listUsers st pg f).data.length
      = min pg.limit ((listUsers st pg f).total - (pg.page - 1) * pg.limit) := by
  unfold listUsers
  simp [List.length_take, List.length_drop, length_sortWith]

theorem postSearchStage_nil (f : PostFilters) : postSearchStage f [] = [] := by
  unfold postSearchStage
  cases f.search <;> simp

theorem postAuthorStage_nil (f : PostFilters) : postAuthorStage f [] = [] := by
  unfold postAuthorStage
  cases f.authorId <;> simp

theorem postStatusStage_nil (f : PostFilters) : postStatusStage f [] = [] := by
  unfold postStatusStage
  cases f.status <;> simp

theorem postCategoryStage_nil (f : PostFilters) : postCategoryStage f [] = [] := by
  unfold postCategoryStage
  cases f.category <;> simp

theorem postTagsStage_nil (f : PostFilters) : postTagsStage f [] = [] := by
  unfold postTagsStage
  cases f.tags <;> simp

theorem postPublishedStage_nil (f : PostFilters) : postPublishedStage f [] = [] := by
  unfold postPublishedStage
  cases f.published <;> simp

theorem postAfterStage_nil (f : PostFilters) : postAfterStage f [] = [] := by
  unfold postAfterStage
  cases f.publishedAfter <;> simp

theorem postBeforeStage_nil (f : PostFilters) : postBeforeStage f [] = [] := by
  unfold postBeforeStage
  cases f.publishedBefore <;> simp

theorem filterPosts_nil (f : PostFilters) : filterPosts f [] = [] := by
  unfold filterPosts
  rw [postSearchStage_nil, postAuthorStage_nil, postStatusStage_nil,
    postCategoryStage_nil, postTagsStage_nil, postPublishedStage_nil,
    postAfterStage_nil, postBeforeStage_nil]

theorem userSearchStage_nil (f : UserFilters) : userSearchStage f [] = [] := by
  unfold userSearchStage
  cases f.search <;> simp

theorem userRoleStage_nil (f : UserFilters) : userRoleStage f [] = [] := by
  unfold userRoleStage
  cases f.role <;> simp

theorem userStatusStage_nil (f : UserFilters) : userStatusStage f [] = [] := by
  unfold userStatusStage
  cases f.status <;> simp

theorem userAfterStage_nil (f : UserFilters) : userAfterStage f [] = [] := by
  unfold userAfterStage
  cases f.createdAfter <;> simp

theorem userBeforeStage_nil (f : UserFilters) : userBeforeStage f [] = [] := by
  unfold userBeforeStage
  cases f.createdBefore <;> simp

theorem filterUsers_nil (f : UserFilters) : filterUsers f [] = [] := by
  unfold filterUsers
  rw [userSearchStage_nil, userRoleStage_nil, userStatusStage_nil,
    userAfterStage_nil, userBeforeStage_nil]

def pgD : Pagination := {}

def pgBeyond : Pagination := { page := 5 }

/-- Claim C2: for every store contents, filter, and valid pagination
input (`page ≥ 1`, `1 ≤ limit ≤ 100`), both list procedures return
`data.length = min limit (total - (page-1)·limit)` — in `Nat`, the
truncated subtraction is `0` whenever the mathematical quantity is not
positive, so this equals the claim's "min when positive, else 0" — and
in particular `data.length ≤ limit`. -/
theorem list_page_length (stP : List Post) (stU : List User)
    (pg : Pagination) (fP : PostFilters) (fU : UserFilters)
    (hpage : 1 ≤ pg.page) (hlim1 : 1 ≤ pg.limit) (hlim2 : pg.limit ≤ 100) :
    ((listPosts stP pg fP).data.length
        = min pg.limit ((listPosts stP pg fP).total - (pg.page - 1) * pg.limit)
      ∧ (listPosts stP pg fP).data.length ≤ pg.limit)
    ∧ ((listUsers stU pg fU).data.length
        = min pg.limit ((listUsers stU pg fU).total - (pg.page - 1) * pg.limit)
      ∧ (listUsers stU pg fU).data.length ≤ pg.limit) :=
  ⟨⟨listPosts_data_length stP pg fP, by
      rw [listPosts_data_length]; exact min_le_left _ _⟩,
   ⟨listUsers_data_length stU pg fU, by
      rw [listUsers_data_length]; exact min_le_left _ _⟩⟩

/-- Witness for C2: both list procedures on two-record stores with the
default pagination. -/
theorem list_page_length_witness :
    ((listPosts [samplePost, samplePostB] pgD {}).data.length
        = min pgD.limit
            ((listPosts [samplePost, samplePostB] pgD {}).total - (pgD.page - 1) * pgD.limit)
      ∧ (listPosts [samplePost, samplePostB] pgD {}).data.length ≤ pgD.limit)
    ∧ ((listUsers [sampleUser, sampleUserB] pgD {}).data.length
        = min pgD.limit
            ((listUsers [sampleUser, sampleUserB] pgD {}).total - (pgD.page - 1) * pgD.limit)
      ∧ (listUsers [sampleUser, sampleUserB] pgD {}).data.length ≤ pgD.limit) :=
  list_page_length [samplePost, samplePostB] [sampleUser, sampleUserB] pgD {} {}
    (by decide) (by decide) (by decide)

/-- Counterexample to claim C4: the comparator of the list procedures is
not a three-way comparison.  On two posts with equal `createdAt` keys
(the default sort field) it returns `1` in both argument orders under
the default descending order — never the `0` the claim requires on
equal keys — so it reports equal-keyed records as strictly ordered, in
an inconsistent way. -/
theorem sort_comparator_equal_keys :
    samplePost.createdAt = samplePostB.createdAt
    ∧ postCompare "createdAt" SortOrder.desc samplePost samplePostB = 1
    ∧ postCompare "createdAt" SortOrder.desc samplePostB samplePost = 1 := by
  decide

/-- Amended claim C4: the list procedures sort with the two-way
comparator `aVal > bVal ? order : -order` (`order` = 1 for `asc`, -1
for `desc`): it agrees with the field order on strictly ordered keys,
but on all other pairs — equal keys included — it returns `-order`,
never `0`, so preservation of the relative order of equal-keyed records
is not expressed by the comparator. -/
theorem sort_comparator_two_way (sortBy : String) (so : SortOrder)
    (a b : Post) (u v : User) :
    (postGt sortBy a b = true → postCompare sortBy so a b = orderVal so)
    ∧ (postGt sortBy a b = false → postCompare sortBy so a b = -orderVal so)
    ∧ postCompare sortBy so a b ≠ 0
    ∧ (userGt sortBy u v = true → userCompare sortBy so u v = orderVal so)
    ∧ (userGt sortBy u v = false → userCompare sortBy so u v = -orderVal so)
    ∧ userCompare sortBy so u v ≠ 0 := by
  unfold postCompare userCompare
  refine ⟨fun h => by rw [if_pos h],
          fun h => by rw [if_neg (by simp [h])],
          ?_,
          fun h => by rw [if_pos h],
          fun h => by rw [if_neg (by simp [h])],
          ?_⟩
  · by_cases h : postGt sortBy a b = true <;> cases so <;> simp [h, orderVal]
  · by_cases h : userGt sortBy u v = true <;> cases so <;> simp [h, orderVal]

/-- Witness for C4 (amended): concrete comparator evaluations. -/
theorem sort_comparator_two_way_witness :
    postCompare "createdAt" SortOrder.desc samplePost samplePostB
      = -orderVal SortOrder.desc
    ∧ userCompare "createdAt" SortOrder.asc sampleUser sampleUserB ≠ 0 :=
  ⟨(sort_comparator_two_way "createdAt" .desc samplePost samplePostB
      sampleUser sampleUserB).2.1 (by decide),
   (sort_comparator_two_way "createdAt" .asc samplePost samplePostB
      sampleUser sampleUserB).2.2.2.2.2⟩

/-- Counterexample to claim C5: on an empty store with the valid
pagination input `page = 2, limit = 20`, both list procedures return
`hasPreviousPage = true` (`page > 1` is computed without looking at the
data), not the `false` the claim asserts for every valid input. -/
theorem list_empty_store_page2_flag :
    (listPosts ([] : List Post) { page := 2 } {}).hasPreviousPage = true
    ∧ (listUsers ([] : List User) { page := 2 } {}).hasPreviousPage = true
    ∧ (listPosts ([] : List Post) { page := 2 } {}).total = 0
    ∧ (listUsers ([] : List User) { page := 2 } {}).total = 0 := by
  decide

/-- Amended claim C5: on an empty store the list procedures return
`total = 0`, `totalPages = 0`, an empty `data` slice and
`hasNextPage = false`, while `hasPreviousPage` is `page > 1` (so it is
`false` exactly for the first page, the default); and on any store a
page past the available range returns an empty `data` slice without
error. -/
theorem list_edge_cases (pg : Pagination) (fP : PostFilters) (fU : UserFilters)
    (stP : List Post) (stU : List User)
    (hpage : 1 ≤ pg.page) (hlim : 1 ≤ pg.limit) :
    ((listPosts [] pg fP).total = 0
      ∧ (listPosts [] pg fP).totalPages = 0
      ∧ (listPosts [] pg fP).data = []
      ∧ (listPosts [] pg fP).hasNextPage = false
      ∧ (listPosts [] pg fP).hasPreviousPage = decide (1 < pg.page))
    ∧ ((listUsers [] pg fU).total = 0
      ∧ (listUsers [] pg fU).totalPages = 0
      ∧ (listUsers [] pg fU).data = []
      ∧ (listUsers [] pg fU).hasNextPage = false
      ∧ (listUsers [] pg fU).hasPreviousPage = decide (1 < pg.page))
    ∧ ((listPosts stP pg fP).total ≤ (pg.page - 1) * pg.limit →
        (listPosts stP pg fP).data = [])
    ∧ ((listUsers stU pg fU).total ≤ (pg.page - 1) * pg.limit →
        (listUsers stU pg fU).data = []) := by
  have hdiv : (pg.limit - 1) / pg.limit = 0 :=
    Nat.div_eq_of_lt (by omega)
  refine ⟨?_, ?_, ?_, ?_⟩
  · unfold listPosts
    rw [filterPosts_nil]
    simp [sortWith, hdiv]
  · unfold listUsers
    rw [filterUsers_nil]
    simp [sortWith, hdiv]
  · intro htot
    have h := listPosts_data_length stP pg fP
    rw [Nat.sub_eq_zero_of_le htot] at h
    simp only [Nat.min_zero] at h
    exact List.eq_nil_of_length_eq_zero h
  · intro htot
    have h := listUsers_data_length stU pg fU
    rw [Nat.sub_eq_zero_of_le htot] at h
    simp only [Nat.min_zero] at h
    exact List.eq_nil_of_length_eq_zero h

/-- Witness for C5 (amended): page 5 of single-record stores. -/
theorem list_edge_cases_witness :
    (listPosts [] pgBeyond {}).total = 0
    ∧ (listPosts [samplePost] pgBeyond {}).data = []
    ∧ (listUsers [sampleUser] pgBeyond {}).data = [] :=
  ⟨(list_edge_cases pgBeyond {} {} [samplePost] [sampleUser]
      (by decide) (by decide)).1.1,
   (list_edge_cases pgBeyond {} {} [samplePost] [sampleUser]
      (by decide) (by decide)).2.2.1 (by decide),
   (list_edge_cases pgBeyond {} {} [samplePost] [sampleUser]
      (by decide) (by decide)).2.2.2 (by decide)⟩

def pubUpd : UpdatePostInput := { published := some true }

/-- Claim C3: for an existing unpublished post with a null publish
timestamp, a successful `published = true` update sets
`publishedAt = now`, and applying the same update again (which always
succeeds, since the merged slug equals the input slug) leaves that
timestamp unchanged; the same holds for `publishPost`, which keeps an
existing timestamp via `post.publishedAt || now`. -/
theorem publish_timestamp_once (st : List Post) (p : Post) (d : UpdatePostInput)
    (t1 t2 : Nat)
    (hget : mapGet Post.id st p.id = some p)
    (hpub : p.published = false)
    (hpa : p.publishedAt = none)
    (hd : d.published = some true)
    (hok : (updatePost st p.id d t1).1.isOk = true) :
    (∃ p1 p2,
      updatePost st p.id d t1 = (.ok p1, mapSet Post.id st p.id p1)
      ∧ p1.publishedAt = some t1
      ∧ updatePost (mapSet Post.id st p.id p1) p.id d t2
          = (.ok p2, mapSet Post.id (mapSet Post.id st p.id p1) p.id p2)
      ∧ p2.publishedAt = some t1)
    ∧ (∃ q1 q2,
      publishPost st p.id true t1 = (.ok q1, mapSet Post.id st p.id q1)
      ∧ q1.publishedAt = some t1
      ∧ publishPost (mapSet Post.id st p.id q1) p.id true t2
          = (.ok q2, mapSet Post.id (mapSet Post.id st p.id q1) p.id q2)
      ∧ q2.publishedAt = some t1) := by
  constructor
  · have hcond : (truthyStr d.slug && d.slug.getD "" != p.slug
        && slugTaken st (d.slug.getD "")) = false := by
      by_contra hc
      rw [Bool.not_eq_false] at hc
      unfold updatePost at hok
      rw [hget] at hok
      simp [hc, Except.isOk, Except.toBool] at hok
    refine ⟨applyUpdate p d t1, applyUpdate (applyUpdate p d t1) d t2, ?_, ?_, ?_, ?_⟩
    · unfold updatePost
      rw [hget]
      simp [hcond]
    · unfold applyUpdate
      simp [hd, hpub]
    · have hget2 : mapGet Post.id (mapSet Post.id st p.id (applyUpdate p d t1)) p.id
          = some (applyUpdate p d t1) :=
        mapGet_mapSet_self Post.id p.id (applyUpdate p d t1) rfl st
      have hcond2 : (truthyStr d.slug && d.slug.getD "" != (applyUpdate p d t1).slug
          && slugTaken (mapSet Post.id st p.id (applyUpdate p d t1)) (d.slug.getD "")) = false := by
        rcases hs : d.slug with _ | s
        · simp [truthyStr, hs]
        · by_cases he : s.isEmpty = true
          · simp [truthyStr, hs, he]
          · have hslug : (applyUpdate p d t1).slug = s := by
              unfold applyUpdate
              simp [hs]
            simp [truthyStr, hs, he, hslug]
      unfold updatePost
      rw [hget2]
      simp [hcond2]
    · have hp1pub : (applyUpdate p d t1).published = true := by
        unfold applyUpdate
        simp [hd]
      show (applyUpdate (applyUpdate p d t1) d t2).publishedAt = some t1
      unfold applyUpdate
      simp [hd, hpub]
  · refine ⟨{ p with
        published := true
        publishedAt := some t1
        status := "published"
        updatedAt := t1 },
      { p with
        published := true
        publishedAt := some t1
        status := "published"
        updatedAt := t2 }, ?_, rfl, ?_, rfl⟩
    · unfold publishPost
      rw [hget]
      simp [hpa]
    · have hget2 : mapGet Post.id
          (mapSet Post.id st p.id ({ p with
            published := true
            publishedAt := some t1
            status := "published"
            updatedAt := t1 } : Post)) p.id
          = some ({ p with
            published := true
            publishedAt := some t1
            status := "published"
            updatedAt := t1 } : Post) :=
        mapGet_mapSet_self Post.id p.id ({ p with
            published := true
            publishedAt := some t1
            status := "published"
            updatedAt := t1 } : Post) rfl st
      unfold publishPost
      rw [hget2]
      simp

/-- Witness for C3: a draft post published at time 10 and republished at
time 20 keeps `publishedAt = 10`, by both procedures. -/
theorem publish_timestamp_once_witness :
    (∃ p1 p2,
      updatePost [samplePostB] samplePostB.id pubUpd 10
        = (.ok p1, mapSet Post.id [samplePostB] samplePostB.id p1)
      ∧ p1.publishedAt = some 10
      ∧ updatePost (mapSet Post.id [samplePostB] samplePostB.id p1) samplePostB.id pubUpd 20
          = (.ok p2, mapSet Post.id (mapSet Post.id [samplePostB] samplePostB.id p1)
              samplePostB.id p2)
      ∧ p2.publishedAt = some 10)
    ∧ (∃ q1 q2,
      publishPost [samplePostB] samplePostB.id true 10
        = (.ok q1, mapSet Post.id [samplePostB] samplePostB.id q1)
      ∧ q1.publishedAt = some 10
      ∧ publishPost (mapSet Post.id [samplePostB] samplePostB.id q1) samplePostB.id true 20
          = (.ok q2, mapSet Post.id (mapSet Post.id [samplePostB] samplePostB.id q1)
              samplePostB.id q2)
      ∧ q2.publishedAt = some 10) :=
  publish_timestamp_once [samplePostB] samplePostB pubUpd 10 20
    (by decide) rfl rfl rfl (by decide)

def dupUserInp : CreateUserInput :=
  { email := "admin@example.com", password := "Other123!", name := "Second Admin" }

def freshUserInp : CreateUserInput :=
  { email := "new@example.com", password := "User123!", name := "New User",
    username := some "newbie" }

/-- Claim C6: creating a user whose email some stored user already has
fails with the duplicate error and leaves the store unchanged; with a
fresh email (and a fresh truthy username, when one is supplied) it
succeeds, and the created user is immediately retrievable through
`getUser` under the returned ID. -/
theorem createUser_email_unique (st : List User) (inp : CreateUserInput)
    (newId : String) (now : Nat) :
    ((∃ u ∈ st, u.email = inp.email) →
      createUser st inp newId now = (.error "Email already exists", st))
    ∧ ((∀ u ∈ st, u.email ≠ inp.email) →
       (∀ s, inp.username = some s → ¬s.isEmpty = true → ∀ u ∈ st, u.username ≠ some s) →
       ∃ user, createUser st inp newId now = (.ok user, mapSet User.id st newId user)
         ∧ user.id = newId ∧ user.email = inp.email
         ∧ getUser (mapSet User.id st newId user) newId = .ok (toPublicUser user)) := by
  constructor
  · rintro ⟨u, hu, he⟩
    unfold createUser
    have hfind : (st.find? (fun x => x.email == inp.email)).isSome = true :=
      List.find?_isSome.mpr ⟨u, hu, by simp [beq_iff_eq, he]⟩
    rw [if_pos hfind]
  · intro hemail huser
    have h1 : ¬(st.find? (fun x => x.email == inp.email)).isSome = true := by
      intro hx
      obtain ⟨u, hu, hux⟩ := List.find?_isSome.mp hx
      exact hemail u hu (by simpa [beq_iff_eq] using hux)
    have h2 : ¬(truthyStr inp.username &&
        (st.find? (fun u => u.username == some (inp.username.getD ""))).isSome) = true := by
      rcases hs : inp.username with _ | s
      · simp [truthyStr, hs]
      · by_cases he : s.isEmpty = true
        · simp [truthyStr, hs, he]
        · have hfind : ¬(st.find? (fun u => u.username == some s)).isSome = true := by
            intro hx
            obtain ⟨u, hu, hux⟩ := List.find?_isSome.mp hx
            exact huser s hs he u hu (by simpa [beq_iff_eq] using hux)
          simp [truthyStr, hs, he, hfind]
    unfold createUser
    rw [if_neg h1, if_neg h2]
    refine ⟨(createMockUser st inp newId now).1, rfl, rfl, rfl, ?_⟩
    unfold getUser
    rw [mapGet_mapSet_self User.id newId (createMockUser st inp newId now).1 rfl st]

/-- Witness for C6: a duplicate admin email is rejected on the sample
store; a fresh email and username succeed and are retrievable. -/
theorem createUser_email_unique_witness :
    createUser [sampleUser] dupUserInp "u9" 7 = (.error "Email already exists", [sampleUser])
    ∧ ∃ user, createUser [sampleUser] freshUserInp "u9" 7
        = (.ok user, mapSet User.id [sampleUser] "u9" user)
      ∧ user.id = "u9" ∧ user.email = freshUserInp.email
      ∧ getUser (mapSet User.id [sampleUser] "u9" user) "u9" = .ok (toPublicUser user) :=
  ⟨(createUser_email_unique [sampleUser] dupUserInp "u9" 7).1
      ⟨sampleUser, List.mem_singleton.mpr rfl, rfl⟩,
   (createUser_email_unique [sampleUser] freshUserInp "u9" 7).2
      (by decide)
      (by
        intro s hs hne u hu
        rw [List.mem_singleton] at hu
        subst hu
        have hs2 : some "newbie" = some s := hs
        cases hs2
        decide)⟩

/-- Claim C7: deleting an absent ID fails with the not-found error and
returns the store unchanged; deleting a present ID (in a well-formed
store) removes exactly that record — the result is the store with that
entry erased and every other ID still maps to its old record — returns
the success acknowledgement, and a subsequent get of the same ID fails
with the not-found error. -/
theorem delete_not_found_spec (stP : List Post) (stU : List User) (idP idU : String) :
    (mapGet Post.id stP idP = none →
      deletePost stP idP = (.error "Post not found", stP))
    ∧ (∀ p, mapGet Post.id stP idP = some p → storeWF Post.id stP = true →
      deletePost stP idP = (.ok (), mapDelete Post.id stP idP)
      ∧ mapGet Post.id (mapDelete Post.id stP idP) idP = none
      ∧ (getPost (mapDelete Post.id stP idP) idP).1 = .error "Post not found"
      ∧ ∀ j, j ≠ idP → mapGet Post.id (mapDelete Post.id stP idP) j = mapGet Post.id stP j)
    ∧ (mapGet User.id stU idU = none →
      deleteUser stU idU = (.error "User not found", stU))
    ∧ (∀ u, mapGet User.id stU idU = some u → storeWF User.id stU = true →
      deleteUser stU idU = (.ok (), mapDelete User.id stU idU)
      ∧ mapGet User.id (mapDelete User.id stU idU) idU = none
      ∧ getUser (mapDelete User.id stU idU) idU = .error "User not found"
      ∧ ∀ j, j ≠ idU → mapGet User.id (mapDelete User.id stU idU) j = mapGet User.id stU j) := by
  refine ⟨?_, ?_, ?_, ?_⟩
  · intro h
    unfold deletePost
    rw [h]
  · intro p hp hwf
    have hnone := mapGet_mapDelete_self Post.id idP stP hwf
    refine ⟨by unfold deletePost; rw [hp], hnone, ?_,
      fun j hj => mapGet_mapDelete_ne Post.id idP j hj stP⟩
    unfold getPost
    rw [hnone]
  · intro h
    unfold deleteUser
    rw [h]
  · intro u hu hwf
    have hnone := mapGet_mapDelete_self User.id idU stU hwf
    refine ⟨by unfold deleteUser; rw [hu], hnone, ?_,
      fun j hj => mapGet_mapDelete_ne User.id idU j hj stU⟩
    unfold getUser
    rw [hnone]

/-- Witness for C7: deletes on absent and present IDs of the sample
stores. -/
theorem delete_not_found_spec_witness :
    deletePost [samplePost] "zz" = (.error "Post not found", [samplePost])
    ∧ (getPost (mapDelete Post.id [samplePost] "p0") "p0").1 = .error "Post not found"
    ∧ deleteUser [sampleUser] "zz" = (.error "User not found", [sampleUser])
    ∧ getUser (mapDelete User.id [sampleUser] "u0") "u0" = .error "User not found" :=
  ⟨(delete_not_found_spec [samplePost] [sampleUser] "zz" "zz").1 (by decide),
   ((delete_not_found_spec [samplePost] [sampleUser] "p0" "u0").2.1 samplePost
      (by decide) (by decide)).2.2.1,
   (delete_not_found_spec [samplePost] [sampleUser] "zz" "zz").2.2.1 (by decide),
   ((delete_not_found_spec [samplePost] [sampleUser] "p0" "u0").2.2.2 sampleUser
      (by decide) (by decide)).2.2.1⟩

/-- Claim C9: a successful `getPost` increments the stored post's view
count by exactly one — the new store is the old one with only that
record replaced by `{ p with viewCount := p.viewCount + 1 }`, and every
other ID still maps to its old record — while the returned public post
omits the view count entirely (it is invariant under any view count);
`getPost` on an absent ID fails with the not-found error and returns
the store unchanged. -/
theorem getPost_increments_viewCount (st : List Post) (id : String) :
    (mapGet Post.id st id = none → getPost st id = (.error "Post not found", st))
    ∧ (∀ p, mapGet Post.id st id = some p →
        getPost st id = (.ok (toPublicPost p),
          mapSet Post.id st id { p with viewCount := p.viewCount + 1 })
        ∧ mapGet Post.id (getPost st id).2 id = some { p with viewCount := p.viewCount + 1 }
        ∧ (∀ j, j ≠ id → mapGet Post.id (getPost st id).2 j = mapGet Post.id st j)
        ∧ ∀ n, toPublicPost { p with viewCount := n } = toPublicPost p) := by
  constructor
  · intro h
    unfold getPost
    rw [h]
  · intro p hp
    have hid : p.id = id := by
      unfold mapGet at hp
      simpa [beq_iff_eq] using List.find?_some hp
    subst hid
    have heq : getPost st p.id = (.ok (toPublicPost p),
        mapSet Post.id st p.id { p with viewCount := p.viewCount + 1 }) := by
      unfold getPost
      rw [hp]
      rfl
    refine ⟨heq, ?_, ?_, fun n => rfl⟩
    · rw [heq]
      exact mapGet_mapSet_self Post.id p.id ({ p with viewCount := p.viewCount + 1 } : Post) rfl st
    · intro j hj
      rw [heq]
      exact mapGet_mapSet_ne Post.id p.id j ({ p with viewCount := p.viewCount + 1 } : Post) rfl hj st

/-- Witness for C9: get of an absent and of a present post on the
sample store. -/
theorem getPost_increments_viewCount_witness :
    getPost [samplePost] "zz" = (.error "Post not found", [samplePost])
    ∧ getPost [samplePost] "p0" = (.ok (toPublicPost samplePost),
        mapSet Post.id [samplePost] "p0" { samplePost with viewCount := samplePost.viewCount + 1 }) :=
  ⟨(getPost_increments_viewCount [samplePost] "zz").1 (by decide),
   ((getPost_increments_viewCount [samplePost] "p0").2 samplePost (by decide)).1⟩

/-- Claim C10: `getUserByEmail` never throws: it always returns a value
— `null` when no stored user has the email (unlike `getUser`, which
throws not-found), and the first matching user's public fields when one
does. -/
theorem getUserByEmail_never_throws (st : List User) (email : String) :
    (∃ v, getUserByEmail st email = .ok v)
    ∧ ((∀ u ∈ st, u.email ≠ email) → getUserByEmail st email = .ok none)
    ∧ (∀ u, st.find? (fun x => x.email == email) = some u →
        getUserByEmail st email = .ok (some (toPublicUser u))) := by
  refine ⟨?_, ?_, ?_⟩
  · unfold getUserByEmail
    split <;> exact ⟨_, rfl⟩
  · intro h
    unfold getUserByEmail
    rw [List.find?_eq_none.mpr (fun x hx => by simpa [beq_iff_eq] using h x hx)]
  · intro u hu
    unfold getUserByEmail
    rw [hu]

/-- Witness for C10: an unknown and a known email on the sample store. -/
theorem getUserByEmail_never_throws_witness :
    getUserByEmail [sampleUser] "nobody@example.com" = .ok none
    ∧ getUserByEmail [sampleUser] "admin@example.com" = .ok (some (toPublicUser sampleUser)) :=
  ⟨(getUserByEmail_never_throws [sampleUser] "nobody@example.com").2.1 (by decide),
   (getUserByEmail_never_throws [sampleUser] "admin@example.com").2.2 sampleUser (by decide)⟩

end Turbo
